import Mathlib

/-!
Shallow embedding of the image-generation slice of the repository:
`GeminiHandler.calculateCost` and `GeminiHandler.generateImage` from
`src/webview-ui/src/components/settings/ImageGenerationSettings.tsx`
(the file also bundles the Gemini provider adapter), together with the
`ImageGenerationResult` shape from the shared types module.

Modelling conventions:
- JS `number` is modelled as `ℚ` (all arithmetic in the cost path is
  exact on the inputs of interest; no NaN/Infinity arise from the
  claims' inputs).
- A JS value of type `T | undefined` is `Option T`.
- JS strings are Lean `String`s; the regular-expression matches in the
  source are modelled character-by-character over `String.data`.
- The single outbound HTTP call of `generateImage` is abstracted by a
  `TransportOutcome` oracle argument: either the provider's parsed JSON
  response, or a thrown error (an `Error` object with a message, or a
  non-`Error` value).  `generateImageRun` additionally reports whether
  the transport was consulted, so "no network call is made" is
  expressible.
-/

namespace GeminiHandler

/-! ### Character-level string helpers (JS regex / string methods) -/

/-- Model of `s.startsWith(pre)` over the underlying character lists. -/
def strStartsWith (s pre : String) : Bool :=
  pre.data.isPrefixOf s.data

/-- Drop the first `n` characters of a string. -/
def strDropChars (s : String) (n : Nat) : String :=
  ⟨s.data.drop n⟩

/-- Replace the first occurrence of `pat` in `s` (JS `String.replace`
with a string pattern replaces only the first occurrence). -/
def listReplaceFirst : List Char → List Char → List Char → List Char
  | [], _, _ => []
  | c :: cs, pat, repl =>
    if pat.isPrefixOf (c :: cs) then repl ++ (c :: cs).drop pat.length
    else c :: listReplaceFirst cs pat repl

/-- Model of `s.replace(pat, repl)` for a string pattern: first
occurrence only. -/
def strReplaceFirst (s pat repl : String) : String :=
  ⟨listReplaceFirst s.data pat.data repl.data⟩

/-- Characters matched by `.` in a JS regex without the `s` flag:
anything but a line terminator. -/
def jsDotChar (c : Char) : Bool :=
  !(c == '\n') && !(c == '\r') && !(c == '\u2028') && !(c == '\u2029')

/-! ### Cost accountant data model (`ModelInfo` price table) -/

/-- One entry of `ModelInfo.tiers`: a context-window bound plus
optional price overrides. -/
structure PricingTier where
  contextWindow : ℚ
  inputPrice : Option ℚ
  outputPrice : Option ℚ
  cacheReadsPrice : Option ℚ
deriving DecidableEq

/-- The slice of `ModelInfo` read by `calculateCost`. -/
structure ModelInfo where
  inputPrice : Option ℚ
  outputPrice : Option ℚ
  cacheReadsPrice : Option ℚ
  tiers : Option (List PricingTier)
deriving DecidableEq

/-- JS truthiness of a `number | undefined` value: `undefined` and `0`
are falsy (`!info.inputPrice` in the source). -/
def jsTruthy : Option ℚ → Bool
  | none => false
  | some x => decide (x ≠ 0)

/-- One row of the diagnostic `trace` built by `calculateCost`:
`{ price, tokens, cost }`. -/
structure CostEntry where
  price : ℚ
  tokens : ℚ
  cost : ℚ
deriving DecidableEq

/-- The diagnostic `trace` record built by `calculateCost`: rows for
`input` and `output`, plus a `cacheRead` row exactly when
`cacheReadTokens > 0`. -/
structure CostTrace where
  input : CostEntry
  output : CostEntry
  cacheRead : Option CostEntry
deriving DecidableEq

/-- Embedding of the body of `GeminiHandler.calculateCost`
(ImageGenerationSettings.tsx lines 525-577), returning everything the
body computes right before its `return` statement: the `totalCost`
value together with the local `trace` record.  The source function
returns only `totalCost`; see `calculateCost` below. -/
def calculateCostWithTrace (info : ModelInfo)
    (inputTokens outputTokens cacheReadTokens : ℚ) :
    Option (ℚ × CostTrace) :=
  if !jsTruthy info.inputPrice || !jsTruthy info.outputPrice
      || !jsTruthy info.cacheReadsPrice then
    none
  else
    let basePrices : ℚ × ℚ × ℚ :=
      (info.inputPrice.getD 0, info.outputPrice.getD 0, info.cacheReadsPrice.getD 0)
    let prices : ℚ × ℚ × ℚ :=
      match info.tiers with
      | none => basePrices
      | some ts =>
        match ts.find? (fun tier => decide (inputTokens ≤ tier.contextWindow)) with
        | none => basePrices
        | some tier =>
          (tier.inputPrice.getD basePrices.1,
           tier.outputPrice.getD basePrices.2.1,
           tier.cacheReadsPrice.getD basePrices.2.2)
    let inputPrice := prices.1
    let outputPrice := prices.2.1
    let cacheReadsPrice := prices.2.2
    let uncachedInputTokens := inputTokens - cacheReadTokens
    let cacheReadCost :=
      if 0 < cacheReadTokens then cacheReadsPrice * (cacheReadTokens / 1000000) else 0
    let inputTokensCost := inputPrice * (uncachedInputTokens / 1000000)
    let outputTokensCost := outputPrice * (outputTokens / 1000000)
    let totalCost := inputTokensCost + outputTokensCost + cacheReadCost
    let trace : CostTrace :=
      { input := ⟨inputPrice, uncachedInputTokens, inputTokensCost⟩
        output := ⟨outputPrice, outputTokens, outputTokensCost⟩
        cacheRead :=
          if 0 < cacheReadTokens then
            some ⟨cacheReadsPrice, cacheReadTokens, cacheReadCost⟩
          else none }
    some (totalCost, trace)

/-- The value `GeminiHandler.calculateCost` actually returns: the bare
`totalCost` (a `number`), or `undefined` when a base price is absent or
zero.  The `trace` record is an internal variable of the source (its
`console.log` is commented out) and is not part of the return value. -/
def calculateCost (info : ModelInfo)
    (inputTokens outputTokens cacheReadTokens : ℚ) : Option ℚ :=
  (calculateCostWithTrace info inputTokens outputTokens cacheReadTokens).map Prod.fst

/-! ### Image generation data model -/

/-- The `ImageGenerationResult` interface from the shared types module
(src/unnamed/part_000 lines 70-75). -/
structure ImageGenerationResult where
  success : Bool
  imageData : Option String
  imageFormat : Option String
  error : Option String
deriving DecidableEq

/-- An `inlineData` member of a response part: optional MIME type and
optional base64 payload. -/
structure InlineData where
  mimeType : Option String
  data : Option String
deriving DecidableEq

/-- One content part of a response candidate (only the `inlineData`
member is read by `generateImage`). -/
structure Part where
  inlineData : Option InlineData
deriving DecidableEq

/-- A candidate's `content` member. -/
structure Content where
  parts : Option (List Part)
deriving DecidableEq

/-- One response candidate. -/
structure Candidate where
  content : Option Content
deriving DecidableEq

/-- The parsed provider response consumed by `generateImage`. -/
structure GenerateContentResponse where
  candidates : Option (List Candidate)
deriving DecidableEq

/-- A value thrown by the transport: an `Error` instance carrying a
message, or any non-`Error` value. -/
inductive ThrownError where
  | errObj (message : String)
  | nonError
deriving DecidableEq

/-- The message the catch block extracts:
`error instanceof Error ? error.message : "Unknown error occurred"`. -/
def ThrownError.messageText : ThrownError → String
  | .errObj m => m
  | .nonError => "Unknown error occurred"

/-- Oracle for the single `client.models.generateContent` call: it
either resolves with a response or throws. -/
inductive TransportOutcome where
  | ok (resp : GenerateContentResponse)
  | raised (e : ThrownError)
deriving DecidableEq

/-! ### Input-image validation -/

/-- Attempted match of `inputImage` against
`^data:image\/(EXT);base64,(.+)$` for one fixed extension `ext`; on
success returns the two capture groups (extension, payload).  The `.+`
of the regex requires a non-empty payload free of line terminators. -/
def matchDataUrlExt (s ext : String) : Option (String × String) :=
  let pre := "data:image/" ++ ext ++ ";base64,"
  if strStartsWith s pre then
    let payload := strDropChars s pre.data.length
    if !payload.data.isEmpty && payload.data.all jsDotChar then
      some (ext, payload)
    else none
  else none

/-- Model of `inputImage.match(/^data:image\/(png|jpeg|jpg);base64,(.+)$/)`
(line 609 of the source).  At most one alternative can match since the
three prefixes are mutually exclusive. -/
def matchDataUrl (s : String) : Option (String × String) :=
  match matchDataUrlExt s "png" with
  | some r => some r
  | none =>
    match matchDataUrlExt s "jpeg" with
    | some r => some r
    | none => matchDataUrlExt s "jpg"

/-- Whether the optional input image passes validation, i.e., whether
execution reaches the network call. -/
def inputImageOk : Option String → Bool
  | none => true
  | some s => (matchDataUrl s).isSome

/-! ### Response parsing -/

/-- The test the response loop applies to a single part: the part must
carry `inlineData` whose `mimeType` starts with `"image/"`; on success
the loop uses that MIME type and the part's base64 data. -/
def partImage (p : Part) : Option (String × Option String) :=
  match p.inlineData with
  | none => none
  | some d =>
    match d.mimeType with
    | none => none
    | some m => if strStartsWith m "image/" then some (m, d.data) else none

/-- The `for (const part of candidate.content.parts)` loop with its
`break`: the first part satisfying `partImage` wins. -/
def candidateImage : List Part → Option (String × Option String)
  | [] => none
  | p :: ps =>
    match partImage p with
    | some r => some r
    | none => candidateImage ps

/-- Normalization of the output format (line 682 of the source):
`mimeType.replace("image/", "").replace("jpeg", "jpg")`. -/
def normalizeFormat (m : String) : String :=
  strReplaceFirst (strReplaceFirst m "image/" "") "jpeg" "jpg"

/-- Embedding of the response-parsing section of `generateImage`
(lines 655-702): candidate/part checks and extraction of the first
inline image part.  A JS template literal stringifies `undefined` as
`"undefined"`, hence the `Option.getD "undefined"` for the payload. -/
def parseImageResponse (resp : GenerateContentResponse) : ImageGenerationResult :=
  match resp.candidates with
  | none => ⟨false, none, none, some "No candidates returned in the response"⟩
  | some [] => ⟨false, none, none, some "No candidates returned in the response"⟩
  | some (candidate :: _) =>
    match candidate.content with
    | none => ⟨false, none, none, some "No content parts in the response"⟩
    | some content =>
      match content.parts with
      | none => ⟨false, none, none, some "No content parts in the response"⟩
      | some parts =>
        match candidateImage parts with
        | none => ⟨false, none, none, some "No image data found in the response"⟩
        | some (mimeType, data) =>
          ⟨true,
           some ("data:" ++ mimeType ++ ";base64," ++ data.getD "undefined"),
           some (normalizeFormat mimeType),
           none⟩

/-- The awaited network call together with the surrounding catch block:
a resolved response is parsed; a thrown value is caught and wrapped as
`"Failed to generate image: <message>"`. -/
def callModel : TransportOutcome → ImageGenerationResult × Bool
  | .ok resp => (parseImageResponse resp, true)
  | .raised e =>
    (⟨false, none, none, some ("Failed to generate image: " ++ e.messageText)⟩, true)

/-- Embedding of `GeminiHandler.generateImage` (lines 587-712).  The
`Bool` component records whether the provider's content-generation
endpoint was invoked.  The `prompt`, `model` and `apiKey` arguments
only shape the outbound request (abstracted by `transport`) and are
kept for signature fidelity. -/
def generateImageRun (prompt model : String) (apiKey : Option String)
    (inputImage : Option String) (transport : TransportOutcome) :
    ImageGenerationResult × Bool :=
  match inputImage with
  | some s =>
    match matchDataUrl s with
    | none =>
      (⟨false, none, none, some "Invalid input image format. Expected base64 data URL."⟩,
       false)
    | some _ => callModel transport
  | none => callModel transport

/-- The `ImageGenerationResult` that `generateImage` resolves with. -/
def generateImage (prompt model : String) (apiKey : Option String)
    (inputImage : Option String) (transport : TransportOutcome) :
    ImageGenerationResult :=
  (generateImageRun prompt model apiKey inputImage transport).fst

/-- A string of the shape `data:<mime>;base64,<payload>`. -/
def IsDataUrl (s : String) : Prop :=
  ∃ mime payload, s = "data:" ++ mime ++ ";base64," ++ payload

/-- The discriminated-outcome invariant of `ImageGenerationResult`:
success carries a well-formed data URL and no error; failure carries a
non-empty error and no image data. -/
def ResultOk (r : ImageGenerationResult) : Prop :=
  (r.success = true →
    r.error = none ∧ ∃ u, r.imageData = some u ∧ IsDataUrl u) ∧
  (r.success = false →
    r.imageData = none ∧ ∃ e, r.error = some e ∧ e ≠ "")

end GeminiHandler

namespace GeminiHandler

/-! ### Helper lemmas: cost accountant -/

/-- Characterization of JS truthiness for a `number | undefined`. -/
theorem jsTruthy_iff (x : Option ℚ) : jsTruthy x = true ↔ ∃ v, x = some v ∧ v ≠ 0 := by
  cases x <;> simp [jsTruthy]

/-- The first element of `pre ++ t :: post` satisfying `P` is `t` when
nothing in `pre` does and `t` does. -/
theorem find?_append_first {α : Type} (P : α → Bool) (pre : List α) (t : α) (post : List α)
    (hpre : ∀ x ∈ pre, P x = false) (ht : P t = true) :
    List.find? P (pre ++ t :: post) = some t := by
  induction pre with
  | nil => simp [List.find?_cons, ht]
  | cons a as ih =>
    have ha : P a = false := hpre a (List.mem_cons_self a as)
    simp only [List.cons_append, List.find?_cons, ha]
    exact ih fun x hx => hpre x (List.mem_cons_of_mem a hx)

/-- Evaluation of the cost body when the truthiness guard passes and no
tier applies (no tier list, or no tier matching the input tokens). -/
theorem calculateCostWithTrace_noTier (ip op cp i o c : ℚ)
    (tiers : Option (List PricingTier))
    (hip : ip ≠ 0) (hop : op ≠ 0) (hcp : cp ≠ 0)
    (htiers : tiers = none ∨ ∃ ts, tiers = some ts ∧
        ts.find? (fun tier => decide (i ≤ tier.contextWindow)) = none) :
    calculateCostWithTrace ⟨some ip, some op, some cp, tiers⟩ i o c =
      some (ip * ((i - c) / 1000000) + op * (o / 1000000) +
              (if 0 < c then cp * (c / 1000000) else 0),
            ⟨⟨ip, i - c, ip * ((i - c) / 1000000)⟩,
             ⟨op, o, op * (o / 1000000)⟩,
             if 0 < c then some ⟨cp, c, cp * (c / 1000000)⟩ else none⟩) := by
  rcases htiers with h | ⟨ts, h, hfind⟩
  · subst h
    by_cases hc : 0 < c <;> simp [calculateCostWithTrace, jsTruthy, hip, hop, hcp, hc]
  · subst h
    by_cases hc : 0 < c <;> simp [calculateCostWithTrace, jsTruthy, hip, hop, hcp, hc, hfind]

/-- Evaluation of the cost body when the truthiness guard passes and a
tier is selected: the tier's defined prices override, the others fall
back to the base prices (`??` in the source). -/
theorem calculateCostWithTrace_tier (ip op cp i o c : ℚ) (ts : List PricingTier)
    (t : PricingTier) (hip : ip ≠ 0) (hop : op ≠ 0) (hcp : cp ≠ 0)
    (hfind : ts.find? (fun tier => decide (i ≤ tier.contextWindow)) = some t) :
    calculateCostWithTrace ⟨some ip, some op, some cp, some ts⟩ i o c =
      some ((t.inputPrice.getD ip) * ((i - c) / 1000000) +
              (t.outputPrice.getD op) * (o / 1000000) +
              (if 0 < c then (t.cacheReadsPrice.getD cp) * (c / 1000000) else 0),
            ⟨⟨t.inputPrice.getD ip, i - c, (t.inputPrice.getD ip) * ((i - c) / 1000000)⟩,
             ⟨t.outputPrice.getD op, o, (t.outputPrice.getD op) * (o / 1000000)⟩,
             if 0 < c then
               some ⟨t.cacheReadsPrice.getD cp, c, (t.cacheReadsPrice.getD cp) * (c / 1000000)⟩
             else none⟩) := by
  by_cases hc : 0 < c <;> simp [calculateCostWithTrace, jsTruthy, hip, hop, hcp, hc, hfind]

end GeminiHandler

namespace GeminiHandler

/-- Claim C8: whenever any of `inputPrice`, `outputPrice`,
`cacheReadsPrice` is absent from the model's price table,
`calculateCost` returns `undefined`, regardless of the token counts and
the other fields. -/
theorem calculateCost_missing_price (info : ModelInfo) (i o c : ℚ)
    (h : info.inputPrice = none ∨ info.outputPrice = none ∨ info.cacheReadsPrice = none) :
    calculateCost info i o c = none := by
  rcases h with h | h | h <;> simp [calculateCost, calculateCostWithTrace, jsTruthy, h]

/-- Witness for C8: a model missing only `cacheReadsPrice`. -/
theorem calculateCost_missing_price_witness :
    calculateCost ⟨some 2, some 10, none, none⟩ 5 5 0 = none :=
  calculateCost_missing_price ⟨some 2, some 10, none, none⟩ 5 5 0 (Or.inr (Or.inr rfl))

/-- Claim C6 (counterexample): a price table with `inputPrice` present
but equal to `0` falsifies the claim as stated: the code returns
`undefined` where the claimed formula yields a defined total (here the
formula gives `5`). -/
theorem calculateCost_formula_cex :
    calculateCost ⟨some 0, some 10, some 1, none⟩ 1000000 500000 0 ≠
      some ((0 : ℚ) * ((1000000 - 0) / 1000000) + 10 * (500000 / 1000000) +
            (if (0 : ℚ) < 0 then 1 * ((0 : ℚ) / 1000000) else 0)) := by
  simp [calculateCost, calculateCostWithTrace, jsTruthy]

/-- Claim C6 (amended: the three prices must be present and nonzero,
since the availability guard uses JS truthiness): with no tier
overriding the base prices, `calculateCost` computes exactly
`inputPrice * (inputTokens - cacheReadTokens) / 1e6
 + outputPrice * outputTokens / 1e6
 + (cacheReadTokens > 0 ? cacheReadsPrice * cacheReadTokens / 1e6 : 0)`. -/
theorem calculateCost_formula (ip op cp i o c : ℚ)
    (tiers : Option (List PricingTier))
    (hip : ip ≠ 0) (hop : op ≠ 0) (hcp : cp ≠ 0)
    (htiers : tiers = none ∨ ∃ ts, tiers = some ts ∧
        ts.find? (fun tier => decide (i ≤ tier.contextWindow)) = none) :
    calculateCost ⟨some ip, some op, some cp, tiers⟩ i o c =
      some (ip * ((i - c) / 1000000) + op * (o / 1000000) +
            (if 0 < c then cp * (c / 1000000) else 0)) := by
  simp [calculateCost, calculateCostWithTrace_noTier ip op cp i o c tiers hip hop hcp htiers]

/-- Witness for C6 at the claim's concrete instance: prices (2, 10, 1),
tokens (2e6, 5e5, 1e6) give a total of 8. -/
theorem calculateCost_formula_witness :
    calculateCost ⟨some 2, some 10, some 1, none⟩ 2000000 500000 1000000 = some 8 := by
  rw [calculateCost_formula 2 10 1 2000000 500000 1000000 none (by norm_num) (by norm_num)
      (by norm_num) (Or.inl rfl)]
  rw [if_pos (by norm_num : (0 : ℚ) < 1000000)]
  norm_num

/-- Claim C7: with tiers defined, the first tier in listed order whose
`contextWindow` is at least `inputTokens` is selected; its defined
prices override the base prices, undefined fields fall back to the base
prices. -/
theorem calculateCost_tier_selection (ip op cp i o c : ℚ)
    (pre post : List PricingTier) (t : PricingTier)
    (hip : ip ≠ 0) (hop : op ≠ 0) (hcp : cp ≠ 0)
    (hpre : ∀ u ∈ pre, ¬ (i ≤ u.contextWindow)) (ht : i ≤ t.contextWindow) :
    calculateCost ⟨some ip, some op, some cp, some (pre ++ t :: post)⟩ i o c =
      some ((t.inputPrice.getD ip) * ((i - c) / 1000000) +
            (t.outputPrice.getD op) * (o / 1000000) +
            (if 0 < c then (t.cacheReadsPrice.getD cp) * (c / 1000000) else 0)) := by
  have hfind : (pre ++ t :: post).find? (fun tier => decide (i ≤ tier.contextWindow)) = some t :=
    find?_append_first _ pre t post (fun x hx => by simp [hpre x hx]) (by simp [ht])
  simp [calculateCost, calculateCostWithTrace_tier ip op cp i o c _ t hip hop hcp hfind]

/-- Witness for C7 at the claim's concrete instance: tiers
`[{contextWindow:128000, inputPrice:1}, {contextWindow:1000000, inputPrice:0.5}]`
and `inputTokens = 500000` select the second tier, whose `inputPrice`
0.5 is used (total 0.5 * 500000 / 1e6 = 1/4), not the base price 3. -/
theorem calculateCost_tier_selection_witness :
    calculateCost ⟨some 3, some 10, some 1,
        some [⟨128000, some 1, none, none⟩, ⟨1000000, some (1/2), none, none⟩]⟩
      500000 0 0 = some (1/4) := by
  have h := calculateCost_tier_selection 3 10 1 500000 0 0
      [⟨128000, some 1, none, none⟩] [] ⟨1000000, some (1/2), none, none⟩
      (by norm_num) (by norm_num) (by norm_num)
      (by
        intro u hu
        simp only [List.mem_singleton] at hu
        subst hu
        norm_num)
      (by norm_num)
  simp only [List.cons_append, List.nil_append] at h
  rw [h]
  norm_num [Option.getD]

/-- Claim C10: a base price that is present but exactly 0 makes
`calculateCost` return `undefined` (truthiness check), whereas a
selected tier's price of 0 does override a nonzero base price
(null-coalescing override): the cost is computed and the input row of
the internal trace carries price 0. -/
theorem calculateCost_zero_price_quirk :
    (∀ (info : ModelInfo) (i o c : ℚ),
      info.inputPrice = some 0 ∨ info.outputPrice = some 0 ∨ info.cacheReadsPrice = some 0 →
      calculateCost info i o c = none) ∧
    (∀ (ip op cp i o c : ℚ) (pre post : List PricingTier) (t : PricingTier),
      ip ≠ 0 → op ≠ 0 → cp ≠ 0 →
      (∀ u ∈ pre, ¬ (i ≤ u.contextWindow)) → i ≤ t.contextWindow →
      t.inputPrice = some 0 →
      ∃ total trace,
        calculateCostWithTrace ⟨some ip, some op, some cp, some (pre ++ t :: post)⟩ i o c
          = some (total, trace) ∧ trace.input.price = 0) := by
  constructor
  · intro info i o c h
    rcases h with h | h | h <;> simp [calculateCost, calculateCostWithTrace, jsTruthy, h]
  · intro ip op cp i o c pre post t hip hop hcp hpre ht htz
    have hfind : (pre ++ t :: post).find? (fun tier => decide (i ≤ tier.contextWindow)) = some t :=
      find?_append_first _ pre t post (fun x hx => by simp [hpre x hx]) (by simp [ht])
    exact ⟨_, _, calculateCostWithTrace_tier ip op cp i o c _ t hip hop hcp hfind,
      by simp [htz]⟩

/-- Witness for C10: a zero base `inputPrice` yields `undefined`, and a
matching tier with `inputPrice = 0` overrides a nonzero base price 3. -/
theorem calculateCost_zero_price_quirk_witness :
    calculateCost ⟨some 0, some 10, some 1, none⟩ 1 1 0 = none ∧
    ∃ total trace,
      calculateCostWithTrace ⟨some 3, some 10, some 1, some [⟨100, some 0, none, none⟩]⟩ 50 7 0
        = some (total, trace) ∧ trace.input.price = 0 := by
  constructor
  · exact calculateCost_zero_price_quirk.1 ⟨some 0, some 10, some 1, none⟩ 1 1 0 (Or.inl rfl)
  · exact calculateCost_zero_price_quirk.2 3 10 1 50 7 0 [] [] ⟨100, some 0, none, none⟩
      (by norm_num) (by norm_num) (by norm_num)
      (by intro u hu; simp at hu) (by norm_num) rfl

end GeminiHandler

namespace GeminiHandler

/-- Claim C1 (counterexample): the value `calculateCost` returns cannot
carry the per-category breakdown.  Two runs whose internal traces
differ (input price 1 vs 2, different token rows) return identical
values, so the result is a bare total, not a breakdown. -/
theorem calculateCost_result_is_bare_total :
    calculateCost ⟨some 1, some 1, some 1, none⟩ 1000000 1000000 0 =
      calculateCost ⟨some 2, some 1, some 1, none⟩ 1000000 0 0 ∧
    calculateCostWithTrace ⟨some 1, some 1, some 1, none⟩ 1000000 1000000 0 ≠
      calculateCostWithTrace ⟨some 2, some 1, some 1, none⟩ 1000000 0 0 := by
  have h1 := calculateCostWithTrace_noTier 1 1 1 1000000 1000000 0 none
      (by norm_num) (by norm_num) (by norm_num) (Or.inl rfl)
  have h2 := calculateCostWithTrace_noTier 2 1 1 1000000 0 0 none
      (by norm_num) (by norm_num) (by norm_num) (Or.inl rfl)
  constructor
  · simp only [calculateCost, h1, h2, Option.map_some, lt_self_iff_false, if_false]
    norm_num
  · rw [h1, h2]
    intro h
    simp only [Option.some.injEq, Prod.mk.injEq, CostTrace.mk.injEq, CostEntry.mk.injEq,
      lt_self_iff_false, if_false] at h
    norm_num at h

/-- Claim C1 (amended): for a model whose three prices are present and
nonzero, the body of `calculateCost` computes the total together with a
per-category trace giving price, token count and sub-cost for input,
for output, and (when `cacheReadTokens > 0`) for cache-read, with the
total equal to the sum of the sub-costs — but the function returns only
the bare total; the trace is internal. -/
theorem calculateCost_trace_shape (info : ModelInfo) (i o c : ℚ)
    (h1 : jsTruthy info.inputPrice = true) (h2 : jsTruthy info.outputPrice = true)
    (h3 : jsTruthy info.cacheReadsPrice = true) :
    ∃ pIn pOut pCache : ℚ,
      calculateCostWithTrace info i o c =
        some (pIn * ((i - c) / 1000000) + pOut * (o / 1000000) +
                (if 0 < c then pCache * (c / 1000000) else 0),
              ⟨⟨pIn, i - c, pIn * ((i - c) / 1000000)⟩,
               ⟨pOut, o, pOut * (o / 1000000)⟩,
               if 0 < c then some ⟨pCache, c, pCache * (c / 1000000)⟩ else none⟩) ∧
      calculateCost info i o c =
        some (pIn * ((i - c) / 1000000) + pOut * (o / 1000000) +
                (if 0 < c then pCache * (c / 1000000) else 0)) := by
  obtain ⟨ipo, opo, cpo, tiers⟩ := info
  obtain ⟨ip, rfl, hip⟩ := (jsTruthy_iff ipo).mp (by simpa using h1)
  obtain ⟨op, rfl, hop⟩ := (jsTruthy_iff opo).mp (by simpa using h2)
  obtain ⟨cp, rfl, hcp⟩ := (jsTruthy_iff cpo).mp (by simpa using h3)
  cases tiers with
  | none =>
    have h := calculateCostWithTrace_noTier ip op cp i o c none hip hop hcp (Or.inl rfl)
    exact ⟨ip, op, cp, h, by simp [calculateCost, h]⟩
  | some ts =>
    cases hfind : ts.find? (fun tier => decide (i ≤ tier.contextWindow)) with
    | none =>
      have h := calculateCostWithTrace_noTier ip op cp i o c (some ts) hip hop hcp
          (Or.inr ⟨ts, rfl, hfind⟩)
      exact ⟨ip, op, cp, h, by simp [calculateCost, h]⟩
    | some t =>
      have h := calculateCostWithTrace_tier ip op cp i o c ts t hip hop hcp hfind
      exact ⟨t.inputPrice.getD ip, t.outputPrice.getD op, t.cacheReadsPrice.getD cp, h,
        by simp [calculateCost, h]⟩

/-- Witness for C1 at the claim's instance (prices 2, 10, 1; tokens
2e6, 5e5, 1e6). -/
theorem calculateCost_trace_shape_witness :
    ∃ pIn pOut pCache : ℚ,
      calculateCostWithTrace ⟨some 2, some 10, some 1, none⟩ 2000000 500000 1000000 =
        some (pIn * ((2000000 - 1000000) / 1000000) + pOut * (500000 / 1000000) +
                (if (0 : ℚ) < 1000000 then pCache * (1000000 / 1000000) else 0),
              ⟨⟨pIn, 2000000 - 1000000, pIn * ((2000000 - 1000000) / 1000000)⟩,
               ⟨pOut, 500000, pOut * (500000 / 1000000)⟩,
               if (0 : ℚ) < 1000000 then
                 some ⟨pCache, 1000000, pCache * (1000000 / 1000000)⟩
               else none⟩) ∧
      calculateCost ⟨some 2, some 10, some 1, none⟩ 2000000 500000 1000000 =
        some (pIn * ((2000000 - 1000000) / 1000000) + pOut * (500000 / 1000000) +
                (if (0 : ℚ) < 1000000 then pCache * (1000000 / 1000000) else 0)) :=
  calculateCost_trace_shape ⟨some 2, some 10, some 1, none⟩ 2000000 500000 1000000
    (by norm_num [jsTruthy]) (by norm_num [jsTruthy]) (by norm_num [jsTruthy])

end GeminiHandler

namespace GeminiHandler

/-! ### Helper lemmas: image generation -/

/-- A list is a prefix of itself followed by anything. -/
theorem isPrefixOf_append (a b : List Char) : a.isPrefixOf (a ++ b) = true := by
  induction a with
  | nil => simp [List.isPrefixOf]
  | cons c cs ih => simp [List.isPrefixOf, ih]

/-- A string starts with any of its own left factors. -/
theorem strStartsWith_append (a b : String) : strStartsWith (a ++ b) a = true := by
  show a.data.isPrefixOf (a ++ b).data = true
  rw [String.data_append]
  exact isPrefixOf_append a.data b.data

/-- Replacing the first occurrence of a non-empty pattern in a string
it heads with the empty string peels the pattern off. -/
theorem listReplaceFirst_exact (c : Char) (cs l : List Char) :
    listReplaceFirst ((c :: cs) ++ l) (c :: cs) [] = l := by
  have hpre : (c :: cs).isPrefixOf ((c :: cs) ++ l) = true := isPrefixOf_append (c :: cs) l
  simp only [List.cons_append] at hpre ⊢
  rw [listReplaceFirst, if_pos hpre]
  simp only [List.nil_append, List.length_cons, List.drop_succ_cons]
  exact List.drop_left cs l

/-- Peeling the `"image/"` MIME prefix with `replace("image/", "")`. -/
theorem strReplaceFirst_eat (b : String) :
    strReplaceFirst ("image/" ++ b) "image/" "" = b := by
  obtain ⟨l⟩ := b
  show (⟨listReplaceFirst ("image/" ++ String.mk l).data "image/".data "".data⟩ : String)
      = String.mk l
  rw [String.data_append]
  exact congrArg String.mk (listReplaceFirst_exact 'i' ['m', 'a', 'g', 'e', '/'] l)

end GeminiHandler

namespace GeminiHandler

/-- Parts rejected by the loop's test are skipped. -/
theorem candidateImage_append (pre rest : List Part)
    (hpre : ∀ q ∈ pre, partImage q = none) :
    candidateImage (pre ++ rest) = candidateImage rest := by
  induction pre with
  | nil => rfl
  | cons p ps ih =>
    have hp : partImage p = none := hpre p (List.mem_cons_self p ps)
    simp only [List.cons_append, candidateImage, hp]
    exact ih fun q hq => hpre q (List.mem_cons_of_mem p hq)

/-- A part list with no image part yields nothing. -/
theorem candidateImage_eq_none (ps : List Part) (h : ∀ q ∈ ps, partImage q = none) :
    candidateImage ps = none := by
  have := candidateImage_append ps [] h
  simpa using this

/-- When the optional input image validates (or is absent), execution
reaches the network call. -/
theorem generateImageRun_ok (prompt model : String) (key : Option String)
    (img : Option String) (transport : TransportOutcome)
    (h : inputImageOk img = true) :
    generateImageRun prompt model key img transport = callModel transport := by
  cases img with
  | none => rfl
  | some s =>
    have hs : (matchDataUrl s).isSome = true := by simpa [inputImageOk] using h
    obtain ⟨r, hr⟩ := Option.isSome_iff_exists.mp hs
    simp [generateImageRun, hr]

end GeminiHandler

namespace GeminiHandler

/-- Failure results with a non-empty message satisfy the
discriminated-outcome invariant. -/
theorem resultOk_failure (msg : String) (hmsg : msg ≠ "") :
    ResultOk ⟨false, none, none, some msg⟩ := by
  constructor
  · intro hs
    simp at hs
  · intro _
    exact ⟨rfl, msg, rfl, hmsg⟩

/-- Success results built from a MIME type and payload satisfy the
discriminated-outcome invariant. -/
theorem resultOk_success (m payload fmt : String) :
    ResultOk ⟨true, some ("data:" ++ m ++ ";base64," ++ payload), some fmt, none⟩ := by
  constructor
  · intro _
    exact ⟨rfl, "data:" ++ m ++ ";base64," ++ payload, rfl, m, payload, rfl⟩
  · intro hs
    simp at hs

/-- The caught-error message is never empty (it carries a fixed
prefix). -/
theorem failMessage_ne_empty (m : String) : "Failed to generate image: " ++ m ≠ "" := by
  intro heq
  have hlen := congrArg String.length heq
  rw [String.length_append] at hlen
  rw [show ("Failed to generate image: ").length = 26 from rfl] at hlen
  rw [show ("" : String).length = 0 from rfl] at hlen
  omega

/-- Every parsed response satisfies the discriminated-outcome
invariant. -/
theorem parseImageResponse_ok (resp : GenerateContentResponse) :
    ResultOk (parseImageResponse resp) := by
  obtain ⟨cands⟩ := resp
  cases cands with
  | none => exact resultOk_failure _ (by decide)
  | some l =>
    cases l with
    | nil => exact resultOk_failure _ (by decide)
    | cons cand rest =>
      obtain ⟨ctOpt⟩ := cand
      cases ctOpt with
      | none => exact resultOk_failure _ (by decide)
      | some ct =>
        obtain ⟨psOpt⟩ := ct
        cases psOpt with
        | none => exact resultOk_failure _ (by decide)
        | some ps =>
          cases hci : candidateImage ps with
          | none =>
            simp only [parseImageResponse, hci]
            exact resultOk_failure _ (by decide)
          | some md =>
            obtain ⟨m, d⟩ := md
            simp only [parseImageResponse, hci]
            exact resultOk_success m (d.getD "undefined") (normalizeFormat m)

/-- Whatever the transport does, the produced result satisfies the
invariant. -/
theorem callModel_fst_ok (t : TransportOutcome) : ResultOk (callModel t).fst := by
  cases t with
  | ok resp => exact parseImageResponse_ok resp
  | raised e => exact resultOk_failure _ (failMessage_ne_empty e.messageText)

end GeminiHandler

namespace GeminiHandler

/-- Claim C2: whenever execution reaches the awaited provider call (the
optional input image validates), a thrown transport/unknown error never
escapes: the result is `success: false` with error
`"Failed to generate image: <message>"`, where the message is the
thrown `Error`'s message, or `"Unknown error occurred"` for a
non-`Error` throw.  (That no exception escapes on any input is inherent
to the embedding: `generateImage` is a total function into
`ImageGenerationResult`.) -/
theorem generateImage_catches_errors (prompt model : String) (key : Option String)
    (img : Option String) (h : inputImageOk img = true) :
    (∀ msg, generateImage prompt model key img (.raised (.errObj msg)) =
        ⟨false, none, none, some ("Failed to generate image: " ++ msg)⟩) ∧
    generateImage prompt model key img (.raised .nonError) =
      ⟨false, none, none, some "Failed to generate image: Unknown error occurred"⟩ := by
  constructor
  · intro msg
    have hrun := generateImageRun_ok prompt model key img (.raised (.errObj msg)) h
    simp [generateImage, hrun, callModel, ThrownError.messageText]
  · have hrun := generateImageRun_ok prompt model key img (.raised .nonError) h
    simp [generateImage, hrun, callModel, ThrownError.messageText]

/-- Witness for C2: a thrown `Error` with message "socket hang up" and
a non-`Error` throw, with no input image. -/
theorem generateImage_catches_errors_witness :
    generateImage "a cat" "gemini-2.5-flash-image-preview" (some "key") none
        (.raised (.errObj "socket hang up")) =
      ⟨false, none, none, some "Failed to generate image: socket hang up"⟩ ∧
    generateImage "a cat" "gemini-2.5-flash-image-preview" (some "key") none
        (.raised .nonError) =
      ⟨false, none, none, some "Failed to generate image: Unknown error occurred"⟩ := by
  constructor
  · have h := (generateImage_catches_errors "a cat" "gemini-2.5-flash-image-preview"
        (some "key") none rfl).1 "socket hang up"
    rw [h]
    rfl
  · exact (generateImage_catches_errors "a cat" "gemini-2.5-flash-image-preview"
      (some "key") none rfl).2

/-- Claim C3: an input image that does not match
`data:image/(png|jpeg|jpg);base64,<payload>` makes `generateImage`
fail immediately with the invalid-format error, and the transport flag
`false` records that the provider's content-generation endpoint was
never invoked. -/
theorem generateImageRun_invalid_input (prompt model : String) (key : Option String)
    (s : String) (transport : TransportOutcome) (h : matchDataUrl s = none) :
    generateImageRun prompt model key (some s) transport =
      (⟨false, none, none, some "Invalid input image format. Expected base64 data URL."⟩,
       false) := by
  simp [generateImageRun, h]

/-- Witness for C3: a plain filename and an unsupported `image/gif`
data URL both fail without a network call, whatever the transport would
have answered. -/
theorem generateImageRun_invalid_input_witness :
    generateImageRun "p" "m" (some "key") (some "photo.png") (.ok ⟨some []⟩) =
      (⟨false, none, none, some "Invalid input image format. Expected base64 data URL."⟩,
       false) ∧
    generateImageRun "p" "m" (some "key") (some "data:image/gif;base64,QUJD")
        (.raised .nonError) =
      (⟨false, none, none, some "Invalid input image format. Expected base64 data URL."⟩,
       false) :=
  ⟨generateImageRun_invalid_input "p" "m" (some "key") "photo.png" (.ok ⟨some []⟩) (by decide),
   generateImageRun_invalid_input "p" "m" (some "key") "data:image/gif;base64,QUJD"
     (.raised .nonError) (by decide)⟩

/-- Claim C4: the three response-shape failures each degrade to a
structured failure with its own distinct message: no (or zero)
candidates; a first candidate with no content (or no parts); parts
containing no image part. -/
theorem generateImage_response_shape_errors (prompt model : String) (key : Option String)
    (img : Option String) (h : inputImageOk img = true) :
    (∀ resp : GenerateContentResponse,
      resp.candidates = none ∨ resp.candidates = some [] →
      generateImage prompt model key img (.ok resp) =
        ⟨false, none, none, some "No candidates returned in the response"⟩) ∧
    (∀ (resp : GenerateContentResponse) (cand : Candidate) (rest : List Candidate),
      resp.candidates = some (cand :: rest) →
      (cand.content = none ∨ ∃ ct, cand.content = some ct ∧ ct.parts = none) →
      generateImage prompt model key img (.ok resp) =
        ⟨false, none, none, some "No content parts in the response"⟩) ∧
    (∀ (resp : GenerateContentResponse) (cand : Candidate) (rest : List Candidate)
        (ct : Content) (ps : List Part),
      resp.candidates = some (cand :: rest) → cand.content = some ct →
      ct.parts = some ps → (∀ q ∈ ps, partImage q = none) →
      generateImage prompt model key img (.ok resp) =
        ⟨false, none, none, some "No image data found in the response"⟩) := by
  refine ⟨?_, ?_, ?_⟩
  · intro resp hc
    have hrun := generateImageRun_ok prompt model key img (.ok resp) h
    rcases hc with hc | hc <;>
      simp [generateImage, hrun, callModel, parseImageResponse, hc]
  · intro resp cand rest hc hct
    have hrun := generateImageRun_ok prompt model key img (.ok resp) h
    rcases hct with hct | ⟨ct, hct, hps⟩
    · simp [generateImage, hrun, callModel, parseImageResponse, hc, hct]
    · simp [generateImage, hrun, callModel, parseImageResponse, hc, hct, hps]
  · intro resp cand rest ct ps hc hct hps hq
    have hrun := generateImageRun_ok prompt model key img (.ok resp) h
    have hci := candidateImage_eq_none ps hq
    simp [generateImage, hrun, callModel, parseImageResponse, hc, hct, hps, hci]

/-- Witness for C4: three stub responses, one per failure shape. -/
theorem generateImage_response_shape_errors_witness :
    generateImage "p" "m" none none (.ok ⟨some []⟩) =
      ⟨false, none, none, some "No candidates returned in the response"⟩ ∧
    generateImage "p" "m" none none (.ok ⟨some [⟨none⟩]⟩) =
      ⟨false, none, none, some "No content parts in the response"⟩ ∧
    generateImage "p" "m" none none (.ok ⟨some [⟨some ⟨some [⟨none⟩]⟩⟩]⟩) =
      ⟨false, none, none, some "No image data found in the response"⟩ := by
  refine ⟨?_, ?_, ?_⟩
  · exact (generateImage_response_shape_errors "p" "m" none none rfl).1
      ⟨some []⟩ (Or.inr rfl)
  · exact (generateImage_response_shape_errors "p" "m" none none rfl).2.1
      ⟨some [⟨none⟩]⟩ ⟨none⟩ [] rfl (Or.inl rfl)
  · exact (generateImage_response_shape_errors "p" "m" none none rfl).2.2
      ⟨some [⟨some ⟨some [⟨none⟩]⟩⟩]⟩ ⟨some ⟨some [⟨none⟩]⟩⟩ [] ⟨some [⟨none⟩]⟩ [⟨none⟩]
      rfl rfl rfl
      (by
        intro q hq
        simp only [List.mem_singleton] at hq
        subst hq
        rfl)

end GeminiHandler

namespace GeminiHandler

/-- Claim C5: when the first candidate's parts contain an inline-data
part whose MIME type is `image/<sub>` (and earlier parts carry no
image), `generateImage` succeeds with `imageFormat` the MIME subtype
with `jpeg` normalized to `jpg`, and `imageData` the re-encoded data
URL `data:<mime>;base64,<payload>` built from that first such part. -/
theorem generateImage_success (prompt model : String) (key : Option String)
    (img : Option String) (resp : GenerateContentResponse) (cand : Candidate)
    (rest : List Candidate) (ct : Content) (pre post : List Part) (p : Part)
    (sub payload : String)
    (h : inputImageOk img = true)
    (hc : resp.candidates = some (cand :: rest))
    (hct : cand.content = some ct)
    (hps : ct.parts = some (pre ++ p :: post))
    (hpre : ∀ q ∈ pre, partImage q = none)
    (hp : p.inlineData = some ⟨some ("image/" ++ sub), some payload⟩) :
    generateImage prompt model key img (.ok resp) =
      ⟨true, some ("data:" ++ ("image/" ++ sub) ++ ";base64," ++ payload),
       some (strReplaceFirst sub "jpeg" "jpg"), none⟩ := by
  have hrun := generateImageRun_ok prompt model key img (.ok resp) h
  have hpart : partImage p = some ("image/" ++ sub, some payload) := by
    simp [partImage, hp, strStartsWith_append]
  have hfirst : candidateImage (pre ++ p :: post) = some ("image/" ++ sub, some payload) := by
    rw [candidateImage_append pre (p :: post) hpre]
    simp [candidateImage, hpart]
  simp [generateImage, hrun, callModel, parseImageResponse, hc, hct, hps, hfirst,
    normalizeFormat, strReplaceFirst_eat]

/-- Witness for C5: an `image/jpeg` inline part yields `success`,
format `jpg`, and the re-encoded data URL; the edit-mode input image
also validates, exercising the full path. -/
theorem generateImage_success_witness :
    generateImage "a cat" "gemini-2.5-flash-image-preview" (some "key")
        (some "data:image/png;base64,iVBOR")
        (.ok ⟨some [⟨some ⟨some [⟨some ⟨some "image/jpeg", some "QUJD"⟩⟩]⟩⟩]⟩) =
      ⟨true, some "data:image/jpeg;base64,QUJD", some "jpg", none⟩ := by
  have h := generateImage_success "a cat" "gemini-2.5-flash-image-preview" (some "key")
      (some "data:image/png;base64,iVBOR")
      ⟨some [⟨some ⟨some [⟨some ⟨some "image/jpeg", some "QUJD"⟩⟩]⟩⟩]⟩
      ⟨some ⟨some [⟨some ⟨some "image/jpeg", some "QUJD"⟩⟩]⟩⟩ []
      ⟨some [⟨some ⟨some "image/jpeg", some "QUJD"⟩⟩]⟩ [] []
      ⟨some ⟨some "image/jpeg", some "QUJD"⟩⟩ "jpeg" "QUJD"
      (by decide) rfl rfl rfl
      (by intro q hq; simp at hq)
      (by decide)
  rw [h]
  decide

/-- Claim C9: every result of `generateImage` populates exactly one of
image data and error: on success the image data is present and is a
well-formed data URL and the error is absent; on failure the error is a
non-empty string and the image data is absent. -/
theorem generateImage_result_invariant (prompt model : String) (key : Option String)
    (img : Option String) (transport : TransportOutcome) :
    ResultOk (generateImage prompt model key img transport) := by
  cases img with
  | none => exact callModel_fst_ok transport
  | some s =>
    cases hm : matchDataUrl s with
    | none =>
      simp only [generateImage, generateImageRun, hm]
      exact resultOk_failure _ (by decide)
    | some r =>
      simp only [generateImage, generateImageRun, hm]
      exact callModel_fst_ok transport

/-- Witness for C9 at concrete inputs: one failing run and, through the
same theorem, one successful run. -/
theorem generateImage_result_invariant_witness :
    ResultOk (generateImage "p" "m" none none (.ok ⟨none⟩)) ∧
    ResultOk (generateImage "p" "m" none none
      (.ok ⟨some [⟨some ⟨some [⟨some ⟨some "image/png", some "QUJD"⟩⟩]⟩⟩]⟩)) :=
  ⟨generateImage_result_invariant "p" "m" none none (.ok ⟨none⟩),
   generateImage_result_invariant "p" "m" none none
     (.ok ⟨some [⟨some ⟨some [⟨some ⟨some "image/png", some "QUJD"⟩⟩]⟩⟩]⟩)⟩

end GeminiHandler
